import Mathlib

/-!
Shallow embedding of the health evaluation and alerting core of the
za-support backend (`app/services/alert_engine.py`, `app/api/dashboard.py`,
`app/api/alerts.py`, `app/api/devices.py`, `app/core/config.py`).

Modelling conventions:
  * Python floats are embedded as `ℚ`, integers as `ℤ` (or `ℕ` for ids).
  * Wall-clock time (`datetime.utcnow()`) is modelled by an abstract clock
    `clock : ℕ → ℕ`: the program's successive calls to `utcnow` read
    `clock n`, `clock (n+1)`, ... where `n` is a call counter threaded
    explicitly.  A monotone `clock` models a well-behaved wall clock.
  * Database rows become Lean structures; a table becomes a `List` of rows;
    SQLAlchemy bulk `update` becomes a `map` over the list.
-/

/-- Severity levels of the `AlertSeverity` enum in `app/models/models.py`. -/
inductive AlertSeverity where
  | CRITICAL
  | HIGH
  | WARNING
  | INFO
deriving DecidableEq

/-- String value of each severity, as in the Python `str, enum.Enum`. -/
def AlertSeverity.value : AlertSeverity → String
  | .CRITICAL => "critical"
  | .HIGH => "high"
  | .WARNING => "warning"
  | .INFO => "info"

/-- A row of the `alerts` table (`Alert` in `app/models/models.py`), limited to
the columns the core logic reads or writes.  `id` is storage-assigned
(column default 0 here until assigned); `resolved` has column default
`False` and `resolved_at` is nullable. -/
structure Alert where
  id : ℕ := 0
  machine_id : String
  severity : String := "info"
  category : String
  message : String
  timestamp : ℕ
  resolved : Bool := false
  resolved_at : Option ℕ := none
deriving DecidableEq

/-- Builds an alert record; embeds `_make_alert` of
`app/services/alert_engine.py`.  The record is stamped with the wall-clock
reading `now` passed in by the caller (the source calls `datetime.utcnow()`
at this point). -/
def make_alert (machine_id : String) (severity : AlertSeverity) (category : String)
    (message : String) (now : ℕ) : Alert :=
  { machine_id := machine_id
    severity := severity.value
    category := category
    message := message
    timestamp := now }

/-- The alerting threshold fields of `Settings` in `app/core/config.py`. -/
structure Settings where
  CPU_CRITICAL : ℚ
  CPU_WARNING : ℚ
  MEMORY_CRITICAL : ℚ
  MEMORY_WARNING : ℚ
  DISK_CRITICAL : ℚ
  DISK_WARNING : ℚ
  BATTERY_CRITICAL : ℚ
  THREAT_CRITICAL : ℤ
deriving DecidableEq

/-- The environment variables feeding the threshold fields of `Settings`
(already parsed to numbers; `none` means the variable is unset). -/
structure ThresholdEnv where
  cpu_critical : Option ℚ := none
  cpu_warning : Option ℚ := none
  memory_critical : Option ℚ := none
  memory_warning : Option ℚ := none
  disk_critical : Option ℚ := none
  disk_warning : Option ℚ := none
  battery_critical : Option ℚ := none
  threat_critical : Option ℤ := none
deriving DecidableEq

/-- Construction of `Settings` at process start (`app/core/config.py`): each
field is `os.getenv` with its documented default, with no further check. -/
def loadSettings (env : ThresholdEnv) : Settings :=
  { CPU_CRITICAL := env.cpu_critical.getD 90
    CPU_WARNING := env.cpu_warning.getD 75
    MEMORY_CRITICAL := env.memory_critical.getD 90
    MEMORY_WARNING := env.memory_warning.getD 80
    DISK_CRITICAL := env.disk_critical.getD 90
    DISK_WARNING := env.disk_warning.getD 80
    BATTERY_CRITICAL := env.battery_critical.getD 20
    THREAT_CRITICAL := env.threat_critical.getD 7 }

/-- The settings obtained with no threshold environment variables set. -/
def defaultSettings : Settings := loadSettings {}

/-- A validated health submission (`HealthSubmission` in
`app/models/schemas.py`), restricted to the fields the alert engine and the
claims use.  Defaults mirror the pydantic model: the three percent fields
default to 0, `battery_percent` is optional, `threat_score` defaults to 0.
`data.get("cpu_percent", 0)` on `payload.model_dump()` therefore always finds
the field. -/
structure HealthPayload where
  machine_id : String
  cpu_percent : ℚ := 0
  memory_percent : ℚ := 0
  disk_percent : ℚ := 0
  battery_percent : Option ℚ := none
  threat_score : ℤ := 0
deriving DecidableEq

/-- `evaluate_health_data` of `app/services/alert_engine.py`: evaluates a
health submission against the configured thresholds and returns the generated
alert records in source order (cpu, memory, disk, battery, security).  Each
generated alert consumes one wall-clock reading, in creation order, starting
at call counter `n`. -/
def evaluate_health_data (machine_id : String) (data : HealthPayload) (s : Settings)
    (clock : ℕ → ℕ) (n : ℕ) : List Alert :=
  let cpu := data.cpu_percent
  let cpuAlerts : List Alert :=
    if s.CPU_CRITICAL ≤ cpu then
      [make_alert machine_id .CRITICAL "cpu"
        ("CPU at " ++ toString cpu ++ "% — sustained high usage.") (clock n)]
    else if s.CPU_WARNING ≤ cpu then
      [make_alert machine_id .WARNING "cpu"
        ("CPU at " ++ toString cpu ++ "% — elevated usage.") (clock n)]
    else []
  let mem := data.memory_percent
  let n1 := n + cpuAlerts.length
  let memAlerts : List Alert :=
    if s.MEMORY_CRITICAL ≤ mem then
      [make_alert machine_id .CRITICAL "memory"
        ("Memory at " ++ toString mem ++ "% — critical pressure.") (clock n1)]
    else if s.MEMORY_WARNING ≤ mem then
      [make_alert machine_id .WARNING "memory"
        ("Memory at " ++ toString mem ++ "% — elevated usage.") (clock n1)]
    else []
  let disk := data.disk_percent
  let n2 := n1 + memAlerts.length
  let diskAlerts : List Alert :=
    if s.DISK_CRITICAL ≤ disk then
      [make_alert machine_id .CRITICAL "disk"
        ("Disk at " ++ toString disk ++ "% — critically full.") (clock n2)]
    else if s.DISK_WARNING ≤ disk then
      [make_alert machine_id .WARNING "disk"
        ("Disk at " ++ toString disk ++ "% — running low.") (clock n2)]
    else []
  let n3 := n2 + diskAlerts.length
  let batAlerts : List Alert :=
    match data.battery_percent with
    | none => []
    | some bat =>
      if bat ≤ s.BATTERY_CRITICAL then
        [make_alert machine_id .CRITICAL "battery"
          ("Battery at " ++ toString bat ++ "% — critically low.") (clock n3)]
      else []
  let n4 := n3 + batAlerts.length
  let threat := data.threat_score
  let threatAlerts : List Alert :=
    if s.THREAT_CRITICAL ≤ threat then
      [make_alert machine_id .CRITICAL "security"
        ("Threat score " ++ toString threat ++ "/10 — security review required.") (clock n4)]
    else []
  cpuAlerts ++ memAlerts ++ diskAlerts ++ batAlerts ++ threatAlerts

/-- The documented sample submission of §8 of the spec. -/
def samplePayload : HealthPayload :=
  { machine_id := "m1"
    cpu_percent := 96
    memory_percent := 50
    disk_percent := 50 }

/-- A row of the `health_data` table (`HealthData` in `app/models/models.py`),
limited to the columns the dashboard reads.  All metric columns are nullable
in the schema, hence `Option`. -/
structure HealthRecord where
  machine_id : String
  timestamp : ℕ := 0
  cpu_percent : Option ℚ := none
  memory_percent : Option ℚ := none
  disk_percent : Option ℚ := none
  battery_percent : Option ℚ := none
  threat_score : Option ℤ := none
deriving DecidableEq

/-- `submit_health` of `app/api/devices.py`, restricted to the values the
claims concern.  Wall-clock consumption follows the source: `device.last_seen`
reads `clock n`, the `HealthData` row's `timestamp` reads `clock (n+1)`, and
the alert engine then reads `clock (n+2)`, `clock (n+3)`, ... one per
generated alert.  Returns the stored telemetry row and the generated alerts. -/
def submit_health (payload : HealthPayload) (s : Settings) (clock : ℕ → ℕ) (n : ℕ) :
    HealthRecord × List Alert :=
  let record : HealthRecord :=
    { machine_id := payload.machine_id
      timestamp := clock (n + 1)
      cpu_percent := some payload.cpu_percent
      memory_percent := some payload.memory_percent
      disk_percent := some payload.disk_percent
      battery_percent := payload.battery_percent
      threat_score := some payload.threat_score }
  (record, evaluate_health_data payload.machine_id payload s clock (n + 2))

/-- Python truthiness-guarded comparison `x and x >= thr` on a nullable float
column, as written in `dashboard_overview` (`app/api/dashboard.py`): `None`
and `0.0` are falsy, so the comparison is only consulted for a present,
nonzero value. -/
def pyAndGeQ (x : Option ℚ) (thr : ℚ) : Bool :=
  match x with
  | none => false
  | some v => decide (v ≠ 0) && decide (thr ≤ v)

/-- Python truthiness-guarded comparison `x and x >= thr` on a nullable integer
column (`threat_score`), as written in `dashboard_overview`. -/
def pyAndGeZ (x : Option ℤ) (thr : ℤ) : Bool :=
  match x with
  | none => false
  | some v => decide (v ≠ 0) && decide (thr ≤ v)

/-- The per-device status computation of `dashboard_overview`
(`app/api/dashboard.py`, the `status` block): starts at `"offline"`, flips to
`"healthy"` when `last_seen` is present and at least `stale_threshold`
(`utcnow - 15 minutes` in the source), then escalates from the latest
telemetry row using the truthiness-guarded comparisons. -/
def dashboard_status (s : Settings) (last_seen : Option ℤ) (stale_threshold : ℤ)
    (latest : Option HealthRecord) : String :=
  match last_seen with
  | none => "offline"
  | some t =>
    if stale_threshold ≤ t then
      match latest with
      | none => "healthy"
      | some l =>
        if pyAndGeQ l.cpu_percent s.CPU_CRITICAL then "critical"
        else if pyAndGeQ l.disk_percent s.DISK_CRITICAL then "critical"
        else if pyAndGeZ l.threat_score s.THREAT_CRITICAL then "critical"
        else if pyAndGeQ l.cpu_percent s.CPU_WARNING || pyAndGeQ l.disk_percent s.DISK_WARNING
          then "warning"
        else "healthy"
    else "offline"

/-- Plain comparison `x >= thr` on an optional metric, reading the spec's
reference rule on a snapshot that "has" the metric (an absent metric breaches
nothing). -/
def optGeQ (x : Option ℚ) (thr : ℚ) : Bool :=
  match x with
  | none => false
  | some v => decide (thr ≤ v)

/-- Plain comparison `x >= thr` on an optional integer metric. -/
def optGeZ (x : Option ℤ) (thr : ℤ) : Bool :=
  match x with
  | none => false
  | some v => decide (thr ≤ v)

/-- Modelled from the spec: the reference definition of the derived device
status quoted in the claim (spec §4.2) — offline when last contact is absent
or older than the staleness window; otherwise healthy by default; critical
when cpu ≥ CPU_CRITICAL, disk ≥ DISK_CRITICAL or threatScore ≥
THREAT_CRITICAL; else warning when cpu ≥ CPU_WARNING or disk ≥ DISK_WARNING;
healthy when no snapshot exists.  Used only as the comparison point of the
refinement claim about `dashboard_status`. -/
def referenceStatus (s : Settings) (last_contact : Option ℤ) (now window : ℤ)
    (latest : Option HealthRecord) : String :=
  match last_contact with
  | none => "offline"
  | some t =>
    if window < now - t then "offline"
    else
      match latest with
      | none => "healthy"
      | some l =>
        if optGeQ l.cpu_percent s.CPU_CRITICAL || optGeQ l.disk_percent s.DISK_CRITICAL
            || optGeZ l.threat_score s.THREAT_CRITICAL then "critical"
        else if optGeQ l.cpu_percent s.CPU_WARNING || optGeQ l.disk_percent s.DISK_WARNING
          then "warning"
        else "healthy"

/-- `resolve_alert` of `app/api/alerts.py`: finds the first alert with the
given id (`.first()`), errors with 404 when absent, and otherwise sets
`resolved = True` and `resolved_at = utcnow()` unconditionally — with no check
of the current `resolved` flag. -/
def resolve_alert (alert_id : ℕ) (now : ℕ) : List Alert → Except String (List Alert)
  | [] => .error "Alert not found."
  | a :: rest =>
    if a.id = alert_id then
      .ok ({ a with resolved := true, resolved_at := some now } :: rest)
    else
      match resolve_alert alert_id now rest with
      | .error e => .error e
      | .ok rest2 => .ok (a :: rest2)

/-- `resolve_all` of `app/api/alerts.py`: the SQLAlchemy bulk
`filter(machine_id == m, resolved == False).update(...)` — every matching row
receives `resolved = True` and the same `resolved_at` (the single `utcnow()`
evaluated once), other rows are untouched, and the matched-row count is
returned. -/
def resolve_all (machine_id : String) (now : ℕ) (db : List Alert) : List Alert × ℕ :=
  (db.map fun a =>
      if a.machine_id = machine_id ∧ a.resolved = false then
        { a with resolved := true, resolved_at := some now }
      else a,
   db.countP fun a => a.machine_id == machine_id && a.resolved == false)

/-- The fields of an alert other than `timestamp`: the part of the evaluator's
output that does not depend on the wall clock. -/
def Alert.core (a : Alert) : String × String × String × String :=
  (a.machine_id, a.severity, a.category, a.message)

/-- The fields of an alert record other than the `resolved` / `resolved_at`
pair: the part the resolution endpoints must never change. -/
def Alert.immutablePart (a : Alert) : ℕ × String × String × String × String × ℕ :=
  (a.id, a.machine_id, a.severity, a.category, a.message, a.timestamp)

/-- A submission sitting exactly at every default critical threshold
(cpu 90, memory 90, disk 90, battery 20, threat 7). -/
def boundaryPayload : HealthPayload :=
  { machine_id := "m3"
    cpu_percent := 90
    memory_percent := 90
    disk_percent := 90
    battery_percent := some 20
    threat_score := 7 }

/-- A submission breaching only the default cpu critical threshold mid-way
between an inverted warning/critical pair. -/
def midPayload : HealthPayload :=
  { machine_id := "m4"
    cpu_percent := 92 }

/-- Default settings with the cpu critical threshold forced to zero. -/
def zeroCritSettings : Settings :=
  { defaultSettings with CPU_CRITICAL := 0 }

/-- A telemetry row whose cpu reading is exactly zero and whose other metric
columns are NULL. -/
def zeroCpuRecord : HealthRecord :=
  { machine_id := "m2"
    cpu_percent := some 0 }

/-- An environment whose cpu warning threshold exceeds its cpu critical
threshold, violating the spec's ordering invariant. -/
def invertedCpuEnv : ThresholdEnv :=
  { cpu_critical := some 90
    cpu_warning := some 95 }

/-- The cpu alert generated for `midPayload` under `invertedCpuEnv` with the
identity clock started at 0. -/
def invertedAlert : Alert :=
  make_alert "m4" .CRITICAL "cpu"
    ("CPU at " ++ toString (92 : ℚ) ++ "% — sustained high usage.") 0

/-- The cpu alert generated for `samplePayload` by `submit_health` with the
identity clock started at 0 (its single evaluator reading is tick 2). -/
def sampleAlert : Alert :=
  make_alert "m1" .CRITICAL "cpu"
    ("CPU at " ++ toString (96 : ℚ) ++ "% — sustained high usage.") 2

/-- An alerts table holding a single already-resolved alert
(resolved at tick 5). -/
def resolvedDb : List Alert :=
  [{ id := 1, machine_id := "m", severity := "critical", category := "cpu",
     message := "x", timestamp := 3, resolved := true, resolved_at := some 5 }]

/-- The table obtained from `resolvedDb` by a second single-alert resolve at
tick 9: the `resolved_at` column has been overwritten. -/
def rebumpedDb : List Alert :=
  [{ id := 1, machine_id := "m", severity := "critical", category := "cpu",
     message := "x", timestamp := 3, resolved := true, resolved_at := some 9 }]

/-- An alerts table mixing an open alert of device `m`, a resolved alert of
`m`, and an open alert of another device. -/
def mixedDb : List Alert :=
  [{ id := 1, machine_id := "m", severity := "critical", category := "cpu",
     message := "a", timestamp := 1, resolved := false, resolved_at := none },
   { id := 2, machine_id := "m", severity := "warning", category := "disk",
     message := "b", timestamp := 2, resolved := true, resolved_at := some 4 },
   { id := 3, machine_id := "other", severity := "critical", category := "memory",
     message := "c", timestamp := 3, resolved := false, resolved_at := none }]

example :
    (evaluate_health_data "m1" samplePayload defaultSettings (fun k => k) 0).map
      (fun a => (a.category, a.severity)) = [("cpu", "critical")] := by decide

section EngineLemmas

/-- Membership in a two-tier threshold check (`if critical ... elif warning ...`). -/
lemma mem_two_tier {p q : Prop} [Decidable p] [Decidable q] {x y a : Alert}
    (h : a ∈ (if p then [x] else if q then [y] else ([] : List Alert))) :
    (p ∧ a = x) ∨ (¬p ∧ q ∧ a = y) := by
  by_cases hp : p
  · rw [if_pos hp] at h
    simp only [List.mem_singleton] at h
    exact Or.inl ⟨hp, h⟩
  · rw [if_neg hp] at h
    by_cases hq : q
    · rw [if_pos hq] at h
      simp only [List.mem_singleton] at h
      exact Or.inr ⟨hp, hq, h⟩
    · rw [if_neg hq] at h
      simp at h

/-- Membership in a one-tier threshold check (`if critical ...`, no warning tier). -/
lemma mem_one_tier {p : Prop} [Decidable p] {x a : Alert}
    (h : a ∈ (if p then [x] else ([] : List Alert))) : p ∧ a = x := by
  by_cases hp : p
  · rw [if_pos hp] at h
    simp only [List.mem_singleton] at h
    exact ⟨hp, h⟩
  · rw [if_neg hp] at h
    simp at h

/-- Full characterisation of the records produced by `evaluate_health_data`:
each one belongs to a fixed device, is unresolved, carries some wall-clock
reading taken during the call, and corresponds to exactly one breached metric
with the severity dictated by the critical-first check order. -/
lemma evaluate_mem_spec (m : String) (d : HealthPayload) (s : Settings) (clock : ℕ → ℕ)
    (n : ℕ) (a : Alert) (h : a ∈ evaluate_health_data m d s clock n) :
    a.machine_id = m ∧ a.resolved = false ∧ a.resolved_at = none ∧
    (∃ j, n ≤ j ∧ a.timestamp = clock j) ∧
    ((a.category = "cpu" ∧
        ((s.CPU_CRITICAL ≤ d.cpu_percent ∧ a.severity = "critical") ∨
         (¬s.CPU_CRITICAL ≤ d.cpu_percent ∧ s.CPU_WARNING ≤ d.cpu_percent ∧
           a.severity = "warning"))) ∨
     (a.category = "memory" ∧
        ((s.MEMORY_CRITICAL ≤ d.memory_percent ∧ a.severity = "critical") ∨
         (¬s.MEMORY_CRITICAL ≤ d.memory_percent ∧ s.MEMORY_WARNING ≤ d.memory_percent ∧
           a.severity = "warning"))) ∨
     (a.category = "disk" ∧
        ((s.DISK_CRITICAL ≤ d.disk_percent ∧ a.severity = "critical") ∨
         (¬s.DISK_CRITICAL ≤ d.disk_percent ∧ s.DISK_WARNING ≤ d.disk_percent ∧
           a.severity = "warning"))) ∨
     (a.category = "battery" ∧
        (∃ b, d.battery_percent = some b ∧ b ≤ s.BATTERY_CRITICAL) ∧
        a.severity = "critical") ∨
     (a.category = "security" ∧ s.THREAT_CRITICAL ≤ d.threat_score ∧
        a.severity = "critical")) := by
  simp only [evaluate_health_data, List.mem_append, or_assoc] at h
  rcases h with h | h | h | h | h
  · rcases mem_two_tier h with ⟨hc, rfl⟩ | ⟨hc, hw, rfl⟩
    · exact ⟨rfl, rfl, rfl, ⟨n, Nat.le_refl n, rfl⟩, Or.inl ⟨rfl, Or.inl ⟨hc, rfl⟩⟩⟩
    · exact ⟨rfl, rfl, rfl, ⟨n, Nat.le_refl n, rfl⟩, Or.inl ⟨rfl, Or.inr ⟨hc, hw, rfl⟩⟩⟩
  · rcases mem_two_tier h with ⟨hc, rfl⟩ | ⟨hc, hw, rfl⟩
    · refine ⟨rfl, rfl, rfl, ⟨_, ?_, rfl⟩, Or.inr (Or.inl ⟨rfl, Or.inl ⟨hc, rfl⟩⟩)⟩
      omega
    · refine ⟨rfl, rfl, rfl, ⟨_, ?_, rfl⟩, Or.inr (Or.inl ⟨rfl, Or.inr ⟨hc, hw, rfl⟩⟩)⟩
      omega
  · rcases mem_two_tier h with ⟨hc, rfl⟩ | ⟨hc, hw, rfl⟩
    · refine ⟨rfl, rfl, rfl, ⟨_, ?_, rfl⟩, Or.inr (Or.inr (Or.inl ⟨rfl, Or.inl ⟨hc, rfl⟩⟩))⟩
      omega
    · refine ⟨rfl, rfl, rfl, ⟨_, ?_, rfl⟩,
        Or.inr (Or.inr (Or.inl ⟨rfl, Or.inr ⟨hc, hw, rfl⟩⟩))⟩
      omega
  · rcases hb : d.battery_percent with _ | bat
    · simp only [hb] at h
      simp at h
    · simp only [hb] at h
      obtain ⟨hc, rfl⟩ := mem_one_tier h
      refine ⟨rfl, rfl, rfl, ⟨_, ?_, rfl⟩,
        Or.inr (Or.inr (Or.inr (Or.inl ⟨rfl, ⟨bat, rfl, hc⟩, rfl⟩)))⟩
      omega
  · obtain ⟨hc, rfl⟩ := mem_one_tier h
    refine ⟨rfl, rfl, rfl, ⟨_, ?_, rfl⟩,
      Or.inr (Or.inr (Or.inr (Or.inr ⟨rfl, hc, rfl⟩)))⟩
    omega

/-- The categories of the evaluator's output form a subsequence of the fixed
order cpu, memory, disk, battery, security. -/
lemma evaluate_category_sublist (m : String) (d : HealthPayload) (s : Settings)
    (clock : ℕ → ℕ) (n : ℕ) :
    List.Sublist ((evaluate_health_data m d s clock n).map Alert.category)
      ["cpu", "memory", "disk", "battery", "security"] := by
  show List.Sublist _ (["cpu"] ++ ["memory"] ++ ["disk"] ++ ["battery"] ++ ["security"])
  simp only [evaluate_health_data, List.map_append]
  refine List.Sublist.append (List.Sublist.append (List.Sublist.append
    (List.Sublist.append ?_ ?_) ?_) ?_) ?_
  · split
    · simp [make_alert]
    · split <;> simp [make_alert]
  · split
    · simp [make_alert]
    · split <;> simp [make_alert]
  · split
    · simp [make_alert]
    · split <;> simp [make_alert]
  · split
    · simp
    · split <;> simp [make_alert]
  · split <;> simp [make_alert]

/-- The clock-independent part of a two-tier threshold check. -/
lemma map_core_two_tier {p q : Prop} [Decidable p] [Decidable q]
    (mid cat : String) (sc sw : AlertSeverity) (mc mw : String) (t1 t2 : ℕ) :
    ((if p then [make_alert mid sc cat mc t1]
      else if q then [make_alert mid sw cat mw t2] else []).map Alert.core) =
    (if p then [(mid, sc.value, cat, mc)]
      else if q then [(mid, sw.value, cat, mw)] else []) := by
  split
  · simp [make_alert, Alert.core]
  · split <;> simp [make_alert, Alert.core]

/-- The clock-independent part of a one-tier threshold check. -/
lemma map_core_one_tier {p : Prop} [Decidable p]
    (mid cat : String) (sc : AlertSeverity) (mc : String) (t1 : ℕ) :
    ((if p then [make_alert mid sc cat mc t1] else []).map Alert.core) =
    (if p then [(mid, sc.value, cat, mc)] else []) := by
  split <;> simp [make_alert, Alert.core]

/-- All fields of the evaluator's output other than the timestamps depend only
on the snapshot and the configuration, not on the clock or the call counter. -/
lemma evaluate_core_eq (m : String) (d : HealthPayload) (s : Settings)
    (c1 c2 : ℕ → ℕ) (n1 n2 : ℕ) :
    (evaluate_health_data m d s c1 n1).map Alert.core =
    (evaluate_health_data m d s c2 n2).map Alert.core := by
  cases hb : d.battery_percent <;>
  · simp only [evaluate_health_data, hb, List.map_append, List.map_nil,
      map_core_two_tier, map_core_one_tier]

lemma two_tier_crit_mem {p q : Prop} [Decidable p] [Decidable q] {x y : Alert} (hp : p) :
    x ∈ (if p then [x] else if q then [y] else ([] : List Alert)) := by
  rw [if_pos hp]
  exact List.mem_singleton_self _

lemma one_tier_mem {p : Prop} [Decidable p] {x : Alert} (hp : p) :
    x ∈ (if p then [x] else ([] : List Alert)) := by
  rw [if_pos hp]
  exact List.mem_singleton_self _

/-- A breached cpu critical threshold yields a critical cpu alert. -/
lemma evaluate_has_cpu (m : String) (d : HealthPayload) (s : Settings) (clock : ℕ → ℕ)
    (n : ℕ) (hc : s.CPU_CRITICAL ≤ d.cpu_percent) :
    ∃ a ∈ evaluate_health_data m d s clock n,
      a.category = "cpu" ∧ a.severity = "critical" := by
  simp only [evaluate_health_data, List.mem_append, or_assoc]
  exact ⟨_, Or.inl (two_tier_crit_mem hc), rfl, rfl⟩

/-- A breached memory critical threshold yields a critical memory alert. -/
lemma evaluate_has_memory (m : String) (d : HealthPayload) (s : Settings) (clock : ℕ → ℕ)
    (n : ℕ) (hc : s.MEMORY_CRITICAL ≤ d.memory_percent) :
    ∃ a ∈ evaluate_health_data m d s clock n,
      a.category = "memory" ∧ a.severity = "critical" := by
  simp only [evaluate_health_data, List.mem_append, or_assoc]
  exact ⟨_, Or.inr (Or.inl (two_tier_crit_mem hc)), rfl, rfl⟩

/-- A breached disk critical threshold yields a critical disk alert. -/
lemma evaluate_has_disk (m : String) (d : HealthPayload) (s : Settings) (clock : ℕ → ℕ)
    (n : ℕ) (hc : s.DISK_CRITICAL ≤ d.disk_percent) :
    ∃ a ∈ evaluate_health_data m d s clock n,
      a.category = "disk" ∧ a.severity = "critical" := by
  simp only [evaluate_health_data, List.mem_append, or_assoc]
  exact ⟨_, Or.inr (Or.inr (Or.inl (two_tier_crit_mem hc))), rfl, rfl⟩

/-- A present battery at or below the critical bound yields a critical battery
alert. -/
lemma evaluate_has_battery (m : String) (d : HealthPayload) (s : Settings) (clock : ℕ → ℕ)
    (n : ℕ) (bat : ℚ) (hb : d.battery_percent = some bat)
    (hc : bat ≤ s.BATTERY_CRITICAL) :
    ∃ a ∈ evaluate_health_data m d s clock n,
      a.category = "battery" ∧ a.severity = "critical" := by
  simp only [evaluate_health_data, hb, List.mem_append, or_assoc]
  exact ⟨_, Or.inr (Or.inr (Or.inr (Or.inl (one_tier_mem hc)))), rfl, rfl⟩

/-- A threat score at or above the critical bound yields a critical security
alert. -/
lemma evaluate_has_security (m : String) (d : HealthPayload) (s : Settings) (clock : ℕ → ℕ)
    (n : ℕ) (hc : s.THREAT_CRITICAL ≤ d.threat_score) :
    ∃ a ∈ evaluate_health_data m d s clock n,
      a.category = "security" ∧ a.severity = "critical" := by
  simp only [evaluate_health_data, List.mem_append, or_assoc]
  exact ⟨_, Or.inr (Or.inr (Or.inr (Or.inr (one_tier_mem hc)))), rfl, rfl⟩

/-- Two evaluator runs whose clocks agree reading-for-reading produce identical
output, timestamps included. -/
lemma evaluate_clock_congr (m : String) (d : HealthPayload) (s : Settings)
    (c1 c2 : ℕ → ℕ) (n1 n2 : ℕ) (hk : ∀ k, c1 (n1 + k) = c2 (n2 + k)) :
    evaluate_health_data m d s c1 n1 = evaluate_health_data m d s c2 n2 := by
  have hk2 : ∀ a b, c1 (n1 + a + b) = c2 (n2 + a + b) := by
    intro a b
    simpa [Nat.add_assoc] using hk (a + b)
  have hk3 : ∀ a b c, c1 (n1 + a + b + c) = c2 (n2 + a + b + c) := by
    intro a b c
    simpa [Nat.add_assoc] using hk (a + (b + c))
  have hk4 : ∀ a b c e, c1 (n1 + a + b + c + e) = c2 (n2 + a + b + c + e) := by
    intro a b c e
    simpa [Nat.add_assoc] using hk (a + (b + (c + e)))
  cases hb : d.battery_percent <;>
  · simp only [evaluate_health_data, hb]
    rw [show c1 n1 = c2 n2 from hk 0]
    try rw [hk]
    try rw [hk2]
    try rw [hk3]
    try rw [hk4]

end EngineLemmas

section ResolveLemmas

lemma resolve_all_length (m : String) (now : ℕ) (db : List Alert) :
    (resolve_all m now db).1.length = db.length := by
  simp [resolve_all]

/-- Row-level effect of the bulk resolve: an open alert of the device gains
`resolved = true` and `resolved_at = some now`; every other row is returned
unchanged. -/
lemma resolve_all_get (m : String) (now : ℕ) (db : List Alert) (i : ℕ)
    (h : i < db.length) :
    (resolve_all m now db).1[i]? =
      some (if db[i].machine_id = m ∧ db[i].resolved = false then
        { db[i] with resolved := true, resolved_at := some now } else db[i]) := by
  simp [resolve_all, List.getElem?_eq_getElem h]

lemma resolve_all_count (m : String) (now : ℕ) (db : List Alert) :
    (resolve_all m now db).2 =
      (db.filter fun a => a.machine_id == m && a.resolved == false).length := by
  simp [resolve_all, List.countP_eq_length_filter]

/-- Full effect of the single-alert resolve: on success the list keeps its
length, every row is either untouched or overwritten with
`resolved = true, resolved_at = some now`, and some row with the requested id
received that overwrite (unconditionally — its previous `resolved` state is
not consulted). -/
lemma resolve_alert_spec (alert_id now : ℕ) :
    ∀ db db2 : List Alert, resolve_alert alert_id now db = .ok db2 →
      db2.length = db.length ∧
      (∀ i (hi : i < db.length),
        (db2[i]? = some db[i] ∨
         (db[i].id = alert_id ∧
          db2[i]? = some { db[i] with resolved := true, resolved_at := some now }))) ∧
      ∃ j, ∃ hj : j < db.length, db[j].id = alert_id ∧
        db2[j]? = some { db[j] with resolved := true, resolved_at := some now } := by
  intro db
  induction db with
  | nil =>
    intro db2 h
    simp [resolve_alert] at h
  | cons a rest ih =>
    intro db2 h
    rw [resolve_alert] at h
    by_cases ha : a.id = alert_id
    · rw [if_pos ha] at h
      injection h with h2
      subst h2
      refine ⟨by simp, ?_, 0, by simp, ha, by simp⟩
      intro i hi
      cases i with
      | zero => exact Or.inr ⟨ha, by simp⟩
      | succ k => exact Or.inl (by simp)
    · rw [if_neg ha] at h
      cases hrec : resolve_alert alert_id now rest with
      | error e =>
        rw [hrec] at h
        exact absurd h (by simp)
      | ok rest2 =>
        rw [hrec] at h
        injection h with h2
        subst h2
        obtain ⟨hlen, hidx, j, hj, hjid, hjval⟩ := ih rest2 hrec
        refine ⟨by simp [hlen], ?_, j + 1, by simpa using hj, by simpa using hjid, ?_⟩
        · intro i hi
          cases i with
          | zero => exact Or.inl (by simp)
          | succ k =>
            have := hidx k (by simpa using hi)
            simpa using this
        · simpa using hjval

end ResolveLemmas

section DashboardLemmas

/-- With a positive threshold, the truthiness guard in the dashboard's check
is redundant: a value that clears the threshold is nonzero. -/
lemma pyAndGeQ_eq_optGeQ (x : Option ℚ) (t : ℚ) (ht : 0 < t) :
    pyAndGeQ x t = optGeQ x t := by
  rcases x with _ | v
  · rfl
  · simp only [pyAndGeQ, optGeQ]
    by_cases hv : t ≤ v
    · simp [hv, (lt_of_lt_of_le ht hv).ne']
    · simp [hv]

/-- Integer version of `pyAndGeQ_eq_optGeQ`. -/
lemma pyAndGeZ_eq_optGeZ (x : Option ℤ) (t : ℤ) (ht : 0 < t) :
    pyAndGeZ x t = optGeZ x t := by
  rcases x with _ | v
  · rfl
  · simp only [pyAndGeZ, optGeZ]
    by_cases hv : t ≤ v
    · simp [hv, (lt_of_lt_of_le ht hv).ne']
    · simp [hv]

/-- A missing or zero metric value fails the truthiness guard outright. -/
lemma pyAndGeQ_none_or_zero (x : Option ℚ) (t : ℚ) (hx : x = none ∨ x = some 0) :
    pyAndGeQ x t = false := by
  rcases hx with rfl | rfl <;> simp [pyAndGeQ]

/-- Integer version of `pyAndGeQ_none_or_zero`. -/
lemma pyAndGeZ_none_or_zero (x : Option ℤ) (t : ℤ) (hx : x = none ∨ x = some 0) :
    pyAndGeZ x t = false := by
  rcases hx with rfl | rfl <;> simp [pyAndGeZ]

end DashboardLemmas

section CriticalityLemmas

/-- When the cpu critical bound is breached, every cpu candidate is critical. -/
lemma evaluate_all_cpu_critical (m : String) (d : HealthPayload) (s : Settings)
    (clock : ℕ → ℕ) (n : ℕ) (hc : s.CPU_CRITICAL ≤ d.cpu_percent) :
    ∀ a ∈ evaluate_health_data m d s clock n,
      a.category = "cpu" → a.severity = "critical" := by
  intro a ha hcat
  obtain ⟨-, -, -, -, hdisj⟩ := evaluate_mem_spec m d s clock n a ha
  rcases hdisj with ⟨hc2, hd⟩ | ⟨hc2, -⟩ | ⟨hc2, -⟩ | ⟨hc2, -, -⟩ | ⟨hc2, -, -⟩
  · rcases hd with ⟨-, hs⟩ | ⟨hns, -, -⟩
    · exact hs
    · exact absurd hc hns
  all_goals
    rw [hcat] at hc2
    exact absurd hc2 (by decide)

/-- When the memory critical bound is breached, every memory candidate is
critical. -/
lemma evaluate_all_memory_critical (m : String) (d : HealthPayload) (s : Settings)
    (clock : ℕ → ℕ) (n : ℕ) (hc : s.MEMORY_CRITICAL ≤ d.memory_percent) :
    ∀ a ∈ evaluate_health_data m d s clock n,
      a.category = "memory" → a.severity = "critical" := by
  intro a ha hcat
  obtain ⟨-, -, -, -, hdisj⟩ := evaluate_mem_spec m d s clock n a ha
  rcases hdisj with ⟨hc2, -⟩ | ⟨hc2, hd⟩ | ⟨hc2, -⟩ | ⟨hc2, -, -⟩ | ⟨hc2, -, -⟩
  case intro.intro.intro.intro.inr.inl.intro =>
    rcases hd with ⟨-, hs⟩ | ⟨hns, -, -⟩
    · exact hs
    · exact absurd hc hns
  all_goals
    rw [hcat] at hc2
    exact absurd hc2 (by decide)

/-- When the disk critical bound is breached, every disk candidate is
critical. -/
lemma evaluate_all_disk_critical (m : String) (d : HealthPayload) (s : Settings)
    (clock : ℕ → ℕ) (n : ℕ) (hc : s.DISK_CRITICAL ≤ d.disk_percent) :
    ∀ a ∈ evaluate_health_data m d s clock n,
      a.category = "disk" → a.severity = "critical" := by
  intro a ha hcat
  obtain ⟨-, -, -, -, hdisj⟩ := evaluate_mem_spec m d s clock n a ha
  rcases hdisj with ⟨hc2, -⟩ | ⟨hc2, -⟩ | ⟨hc2, hd⟩ | ⟨hc2, -, -⟩ | ⟨hc2, -, -⟩
  case intro.intro.intro.intro.inr.inr.inl.intro =>
    rcases hd with ⟨-, hs⟩ | ⟨hns, -, -⟩
    · exact hs
    · exact absurd hc hns
  all_goals
    rw [hcat] at hc2
    exact absurd hc2 (by decide)

/-- Every battery candidate is critical (there is no battery warning tier). -/
lemma evaluate_all_battery_critical (m : String) (d : HealthPayload) (s : Settings)
    (clock : ℕ → ℕ) (n : ℕ) :
    ∀ a ∈ evaluate_health_data m d s clock n,
      a.category = "battery" → a.severity = "critical" := by
  intro a ha hcat
  obtain ⟨-, -, -, -, hdisj⟩ := evaluate_mem_spec m d s clock n a ha
  rcases hdisj with ⟨hc2, -⟩ | ⟨hc2, -⟩ | ⟨hc2, -⟩ | ⟨hc2, -, hs⟩ | ⟨hc2, -, -⟩
  case intro.intro.intro.intro.inr.inr.inr.inl.intro.intro => exact hs
  all_goals
    rw [hcat] at hc2
    exact absurd hc2 (by decide)

/-- Every security candidate is critical (there is no security warning
tier). -/
lemma evaluate_all_security_critical (m : String) (d : HealthPayload) (s : Settings)
    (clock : ℕ → ℕ) (n : ℕ) :
    ∀ a ∈ evaluate_health_data m d s clock n,
      a.category = "security" → a.severity = "critical" := by
  intro a ha hcat
  obtain ⟨-, -, -, -, hdisj⟩ := evaluate_mem_spec m d s clock n a ha
  rcases hdisj with ⟨hc2, -⟩ | ⟨hc2, -⟩ | ⟨hc2, -⟩ | ⟨hc2, -, -⟩ | ⟨hc2, -, hs⟩
  case intro.intro.intro.intro.inr.inr.inr.inr.intro.intro => exact hs
  all_goals
    rw [hcat] at hc2
    exact absurd hc2 (by decide)

end CriticalityLemmas


/-- C1: for every snapshot and threshold configuration the evaluator emits at
most one candidate per metric, the category list is a subsequence of the fixed
order cpu, memory, disk, battery, security (hence at most five candidates and
no repeated metric), and for each paired metric a warning candidate exists
only when the critical comparison did not fire. -/
theorem C1_per_metric_order_and_short_circuit (m : String) (d : HealthPayload)
    (s : Settings) (clock : ℕ → ℕ) (n : ℕ) :
    List.Sublist ((evaluate_health_data m d s clock n).map Alert.category)
      ["cpu", "memory", "disk", "battery", "security"] ∧
    (evaluate_health_data m d s clock n).length ≤ 5 ∧
    ∀ a ∈ evaluate_health_data m d s clock n,
      (a.category = "cpu" → a.severity = "warning" →
        d.cpu_percent < s.CPU_CRITICAL) ∧
      (a.category = "memory" → a.severity = "warning" →
        d.memory_percent < s.MEMORY_CRITICAL) ∧
      (a.category = "disk" → a.severity = "warning" →
        d.disk_percent < s.DISK_CRITICAL) := by
  refine ⟨evaluate_category_sublist m d s clock n, ?_, ?_⟩
  · simpa using (evaluate_category_sublist m d s clock n).length_le
  · intro a ha
    obtain ⟨-, -, -, -, hdisj⟩ := evaluate_mem_spec m d s clock n a ha
    refine ⟨?_, ?_, ?_⟩ <;> intro hcat hsev <;>
      rcases hdisj with ⟨hc2, hd⟩ | ⟨hc2, hd⟩ | ⟨hc2, hd⟩ | ⟨hc2, h1, h2⟩ | ⟨hc2, h1, h2⟩ <;>
      first
        | (rcases hd with ⟨-, hs⟩ | ⟨hns, -, -⟩
           · rw [hsev] at hs
             exact absurd hs (by decide)
           · exact not_le.mp hns)
        | (rw [hcat] at hc2
           exact absurd hc2 (by decide))

/-- C1 witness: the §8 example snapshot (cpu 96 under default thresholds)
instantiates the theorem; its single candidate is the critical cpu alert. -/
theorem C1_witness :
    List.Sublist ((evaluate_health_data "m1" samplePayload defaultSettings
      (fun k => k) 0).map Alert.category)
      ["cpu", "memory", "disk", "battery", "security"] ∧
    (evaluate_health_data "m1" samplePayload defaultSettings (fun k => k) 0).length ≤ 5 :=
  ⟨(C1_per_metric_order_and_short_circuit "m1" samplePayload defaultSettings
      (fun k => k) 0).1,
   (C1_per_metric_order_and_short_circuit "m1" samplePayload defaultSettings
      (fun k => k) 0).2.1⟩

/-- C3: a metric value exactly equal to its critical threshold produces a
critical alert for that metric, never a warning one — all critical
comparisons are inclusive (`>=` for cpu, memory, disk, threat; `<=` for
battery). -/
theorem C3_inclusive_critical_boundaries (m : String) (d : HealthPayload)
    (s : Settings) (clock : ℕ → ℕ) (n : ℕ) :
    (d.cpu_percent = s.CPU_CRITICAL →
      (∃ a ∈ evaluate_health_data m d s clock n,
        a.category = "cpu" ∧ a.severity = "critical") ∧
      ∀ a ∈ evaluate_health_data m d s clock n,
        a.category = "cpu" → a.severity = "critical") ∧
    (d.memory_percent = s.MEMORY_CRITICAL →
      (∃ a ∈ evaluate_health_data m d s clock n,
        a.category = "memory" ∧ a.severity = "critical") ∧
      ∀ a ∈ evaluate_health_data m d s clock n,
        a.category = "memory" → a.severity = "critical") ∧
    (d.disk_percent = s.DISK_CRITICAL →
      (∃ a ∈ evaluate_health_data m d s clock n,
        a.category = "disk" ∧ a.severity = "critical") ∧
      ∀ a ∈ evaluate_health_data m d s clock n,
        a.category = "disk" → a.severity = "critical") ∧
    (d.battery_percent = some s.BATTERY_CRITICAL →
      (∃ a ∈ evaluate_health_data m d s clock n,
        a.category = "battery" ∧ a.severity = "critical") ∧
      ∀ a ∈ evaluate_health_data m d s clock n,
        a.category = "battery" → a.severity = "critical") ∧
    (d.threat_score = s.THREAT_CRITICAL →
      (∃ a ∈ evaluate_health_data m d s clock n,
        a.category = "security" ∧ a.severity = "critical") ∧
      ∀ a ∈ evaluate_health_data m d s clock n,
        a.category = "security" → a.severity = "critical") := by
  refine ⟨fun he => ⟨?_, ?_⟩, fun he => ⟨?_, ?_⟩, fun he => ⟨?_, ?_⟩,
    fun he => ⟨?_, ?_⟩, fun he => ⟨?_, ?_⟩⟩
  · exact evaluate_has_cpu m d s clock n he.ge
  · exact evaluate_all_cpu_critical m d s clock n he.ge
  · exact evaluate_has_memory m d s clock n he.ge
  · exact evaluate_all_memory_critical m d s clock n he.ge
  · exact evaluate_has_disk m d s clock n he.ge
  · exact evaluate_all_disk_critical m d s clock n he.ge
  · exact evaluate_has_battery m d s clock n s.BATTERY_CRITICAL he le_rfl
  · exact evaluate_all_battery_critical m d s clock n
  · exact evaluate_has_security m d s clock n he.ge
  · exact evaluate_all_security_critical m d s clock n

/-- C3 witness: a snapshot sitting exactly at every default critical threshold
instantiates the theorem; its cpu candidate is critical. -/
theorem C3_witness :
    boundaryPayload.cpu_percent = defaultSettings.CPU_CRITICAL ∧
    (make_alert "m3" .CRITICAL "cpu"
      ("CPU at " ++ toString (90 : ℚ) ++ "% — sustained high usage.") 0).severity =
      "critical" :=
  ⟨by decide,
   ((C3_inclusive_critical_boundaries "m3" boundaryPayload defaultSettings
       (fun k => k) 0).1 (by decide)).2
     (make_alert "m3" .CRITICAL "cpu"
       ("CPU at " ++ toString (90 : ℚ) ++ "% — sustained high usage.") 0)
     (by decide) (by decide)⟩

/-- C9: a snapshot with `batteryPercent` absent never yields a battery
candidate, whatever the other metrics and thresholds are. -/
theorem C9_missing_battery_skipped (m : String) (d : HealthPayload) (s : Settings)
    (clock : ℕ → ℕ) (n : ℕ) (hb : d.battery_percent = none) :
    ∀ a ∈ evaluate_health_data m d s clock n, a.category ≠ "battery" := by
  intro a ha
  obtain ⟨-, -, -, -, hdisj⟩ := evaluate_mem_spec m d s clock n a ha
  rcases hdisj with ⟨hc2, -⟩ | ⟨hc2, -⟩ | ⟨hc2, -⟩ | ⟨hc2, hex, -⟩ | ⟨hc2, -, -⟩
  case intro.intro.intro.intro.inr.inr.inr.inl.intro.intro =>
    rw [hb] at hex
    obtain ⟨b, hbb, -⟩ := hex
    exact absurd hbb (by simp)
  all_goals
    rw [hc2]
    decide

/-- C9 witness: the §8 example snapshot has no battery reading; its cpu
candidate is not a battery candidate. -/
theorem C9_witness :
    samplePayload.battery_percent = none ∧
    (make_alert "m1" .CRITICAL "cpu"
      ("CPU at " ++ toString (96 : ℚ) ++ "% — sustained high usage.") 0).category ≠
      "battery" :=
  ⟨rfl,
   C9_missing_battery_skipped "m1" samplePayload defaultSettings (fun k => k) 0 rfl
     (make_alert "m1" .CRITICAL "cpu"
       ("CPU at " ++ toString (96 : ℚ) ++ "% — sustained high usage.") 0)
     (by decide)⟩

/-- C2 counterexample: with the cpu critical threshold configured to 0 and a
fresh device whose latest row has cpu exactly 0, the dashboard computes
`healthy` while the claim's reference definition computes `critical` — the
truthiness guard (`latest.cpu_percent and ...`) makes a zero reading unable to
breach a nonpositive threshold. -/
theorem C2_counterexample :
    dashboard_status zeroCritSettings (some 15) 0 (some zeroCpuRecord) = "healthy" ∧
    referenceStatus zeroCritSettings (some 15) 15 15 (some zeroCpuRecord) = "critical" ∧
    dashboard_status zeroCritSettings (some 15) 0 (some zeroCpuRecord) ≠
      referenceStatus zeroCritSettings (some 15) 15 15 (some zeroCpuRecord) := by
  decide

/-- C2 (amended): for a device whose last contact lies within the staleness
window, the dashboard status equals the reference definition provided the
thresholds consulted by the rollup (cpu/disk critical and warning, threat
critical) are positive; with a nonpositive threshold a reading of exactly 0
(or NULL) cannot escalate the dashboard status. -/
theorem C2_amended_status_matches_reference (s : Settings) (t now window : ℤ)
    (latest : Option HealthRecord)
    (h1 : 0 < s.CPU_CRITICAL) (h2 : 0 < s.DISK_CRITICAL) (h3 : 0 < s.THREAT_CRITICAL)
    (h4 : 0 < s.CPU_WARNING) (h5 : 0 < s.DISK_WARNING)
    (hfresh : now - window ≤ t) :
    dashboard_status s (some t) (now - window) latest =
      referenceStatus s (some t) now window latest := by
  have hstale : ¬window < now - t := by omega
  cases latest with
  | none => simp [dashboard_status, referenceStatus, hfresh, hstale]
  | some l =>
    simp only [dashboard_status, referenceStatus, if_pos hfresh, if_neg hstale,
      pyAndGeQ_eq_optGeQ _ _ h1, pyAndGeQ_eq_optGeQ _ _ h2, pyAndGeZ_eq_optGeZ _ _ h3,
      pyAndGeQ_eq_optGeQ _ _ h4, pyAndGeQ_eq_optGeQ _ _ h5]
    cases optGeQ l.cpu_percent s.CPU_CRITICAL <;>
    cases optGeQ l.disk_percent s.DISK_CRITICAL <;>
    cases optGeZ l.threat_score s.THREAT_CRITICAL <;>
    cases optGeQ l.cpu_percent s.CPU_WARNING <;>
    cases optGeQ l.disk_percent s.DISK_WARNING <;>
    simp

/-- C2 witness: default thresholds are positive; a fresh device with a
healthy-looking latest row gets the same status from the code and from the
reference definition. -/
theorem C2_amended_witness :
    dashboard_status defaultSettings (some 0) (15 - 15) (some zeroCpuRecord) =
      referenceStatus defaultSettings (some 0) 15 15 (some zeroCpuRecord) :=
  C2_amended_status_matches_reference defaultSettings 0 15 15 (some zeroCpuRecord)
    (by decide) (by decide) (by decide) (by decide) (by decide) (by decide)

/-- C10: a NULL or zero cpu, disk or threat reading in the latest row is
inert for the dashboard status (the row behaves as if that column were NULL,
and no error is raised — the guarded comparison is never consulted); yet with
a nonpositive cpu critical threshold the evaluator's unguarded `>=` on a zero
cpu reading does emit a critical cpu alert. -/
theorem C10_truthiness_vs_evaluator :
    (∀ (s : Settings) (t st : ℤ) (l : HealthRecord),
      (l.cpu_percent = none ∨ l.cpu_percent = some 0) →
      dashboard_status s (some t) st (some l) =
        dashboard_status s (some t) st (some { l with cpu_percent := none })) ∧
    (∀ (s : Settings) (t st : ℤ) (l : HealthRecord),
      (l.disk_percent = none ∨ l.disk_percent = some 0) →
      dashboard_status s (some t) st (some l) =
        dashboard_status s (some t) st (some { l with disk_percent := none })) ∧
    (∀ (s : Settings) (t st : ℤ) (l : HealthRecord),
      (l.threat_score = none ∨ l.threat_score = some 0) →
      dashboard_status s (some t) st (some l) =
        dashboard_status s (some t) st (some { l with threat_score := none })) ∧
    (∀ (s : Settings) (m : String) (d : HealthPayload) (clock : ℕ → ℕ) (n : ℕ),
      s.CPU_CRITICAL ≤ 0 → d.cpu_percent = 0 →
      ∃ a ∈ evaluate_health_data m d s clock n,
        a.category = "cpu" ∧ a.severity = "critical") := by
  refine ⟨?_, ?_, ?_, ?_⟩
  · intro s t st l hx
    simp [dashboard_status, pyAndGeQ_none_or_zero _ _ hx,
      pyAndGeQ_none_or_zero (none : Option ℚ) _ (Or.inl rfl)]
  · intro s t st l hx
    simp [dashboard_status, pyAndGeQ_none_or_zero _ _ hx,
      pyAndGeQ_none_or_zero (none : Option ℚ) _ (Or.inl rfl)]
  · intro s t st l hx
    simp [dashboard_status, pyAndGeZ_none_or_zero _ _ hx,
      pyAndGeZ_none_or_zero (none : Option ℤ) _ (Or.inl rfl)]
  · intro s m d clock n hs hd
    refine evaluate_has_cpu m d s clock n ?_
    rw [hd]
    exact hs

/-- C10 witness: a fresh device whose latest row reads cpu 0 (other columns
NULL) keeps its status when the zero reading is replaced by NULL. -/
theorem C10_witness :
    dashboard_status zeroCritSettings (some 0) 0 (some zeroCpuRecord) =
      dashboard_status zeroCritSettings (some 0) 0
        (some { zeroCpuRecord with cpu_percent := none }) :=
  C10_truthiness_vs_evaluator.1 zeroCritSettings 0 0 zeroCpuRecord (Or.inr rfl)

/-- C4 counterexample: an environment with `CPU_WARNING=95 > CPU_CRITICAL=90`
loads successfully — startup performs no ordering validation, so the violating
configuration is live in the running process instead of being rejected. -/
theorem C4_counterexample :
    (loadSettings invertedCpuEnv).CPU_CRITICAL <
      (loadSettings invertedCpuEnv).CPU_WARNING := by
  decide

/-- C4 (amended): the configuration loader accepts every combination of
threshold values — each `Settings` value, ordered or not, is reachable from
some environment, and none is rejected at startup.  No configuration error
arises at evaluation time either: on an inverted cpu pair the evaluator still
runs and its cpu warning tier is simply unreachable (every cpu candidate is
critical). -/
theorem C4_no_startup_validation :
    (∀ s : Settings, ∃ env : ThresholdEnv, loadSettings env = s) ∧
    (∀ (env : ThresholdEnv) (m : String) (d : HealthPayload) (clock : ℕ → ℕ) (n : ℕ),
      (loadSettings env).CPU_CRITICAL < (loadSettings env).CPU_WARNING →
      ∀ a ∈ evaluate_health_data m d (loadSettings env) clock n,
        a.category = "cpu" → a.severity = "critical") := by
  constructor
  · intro s
    exact ⟨⟨some s.CPU_CRITICAL, some s.CPU_WARNING, some s.MEMORY_CRITICAL,
      some s.MEMORY_WARNING, some s.DISK_CRITICAL, some s.DISK_WARNING,
      some s.BATTERY_CRITICAL, some s.THREAT_CRITICAL⟩, rfl⟩
  · intro env m d clock n hlt a ha hcat
    obtain ⟨-, -, -, -, hdisj⟩ := evaluate_mem_spec m d (loadSettings env) clock n a ha
    rcases hdisj with ⟨hc2, hd⟩ | ⟨hc2, -⟩ | ⟨hc2, -⟩ | ⟨hc2, -, -⟩ | ⟨hc2, -, -⟩
    · rcases hd with ⟨-, hs⟩ | ⟨hns, hw, -⟩
      · exact hs
      · exact absurd (le_trans hlt.le hw) hns
    all_goals
      rw [hcat] at hc2
      exact absurd hc2 (by decide)

/-- C4 witness: under the inverted environment, the cpu candidate generated
for a reading between the two thresholds is critical. -/
theorem C4_witness :
    (loadSettings invertedCpuEnv).CPU_CRITICAL < (loadSettings invertedCpuEnv).CPU_WARNING ∧
    invertedAlert.severity = "critical" :=
  ⟨by decide,
   C4_no_startup_validation.2 invertedCpuEnv "m4" midPayload (fun k => k) 0
     (by decide) invertedAlert (by decide) (by decide)⟩

/-- C5 counterexample: two evaluator runs on the same snapshot and the same
configuration, performed at different wall-clock instants (call counters 0 and
1 of the identity clock), differ — each run stamps its candidates with fresh
`utcnow()` readings, so the timestamps disagree. -/
theorem C5_counterexample :
    evaluate_health_data "m1" samplePayload defaultSettings (fun k => k) 0 ≠
      evaluate_health_data "m1" samplePayload defaultSettings (fun k => k) 1 := by
  decide

/-- C5 (amended): two evaluator runs on the same snapshot and configuration
agree on the number, order, device, severity, category and message of their
candidates, whatever the clock does; the full lists (timestamps included)
coincide exactly when the two runs' wall-clock readings agree
reading-for-reading. -/
theorem C5_deterministic_up_to_clock (m : String) (d : HealthPayload) (s : Settings)
    (c1 c2 : ℕ → ℕ) (n1 n2 : ℕ) :
    (evaluate_health_data m d s c1 n1).map Alert.core =
      (evaluate_health_data m d s c2 n2).map Alert.core ∧
    ((∀ k, c1 (n1 + k) = c2 (n2 + k)) →
      evaluate_health_data m d s c1 n1 = evaluate_health_data m d s c2 n2) :=
  ⟨evaluate_core_eq m d s c1 c2 n1 n2,
   fun hk => evaluate_clock_congr m d s c1 c2 n1 n2 hk⟩

/-- C5 witness: with the same clock and the same starting counter the two runs
coincide exactly. -/
theorem C5_witness :
    evaluate_health_data "m1" samplePayload defaultSettings (fun k => k) 0 =
      evaluate_health_data "m1" samplePayload defaultSettings (fun k => k) 0 :=
  (C5_deterministic_up_to_clock "m1" samplePayload defaultSettings
    (fun k => k) (fun k => k) 0 0).2 (fun _ => rfl)

/-- C6 counterexample: under a strictly advancing clock, the telemetry row is
stamped at tick 1 but the generated cpu alert is stamped at tick 2 — the alert
engine calls `utcnow()` again when building the alert, so the alert timestamp
does not equal the snapshot's `capturedAt`. -/
theorem C6_counterexample :
    ((submit_health samplePayload defaultSettings (fun k => k) 0).2.map
      Alert.timestamp) = [2] ∧
    (submit_health samplePayload defaultSettings (fun k => k) 0).1.timestamp = 1 ∧
    ((submit_health samplePayload defaultSettings (fun k => k) 0).2.map
      Alert.timestamp) ≠
      [(submit_health samplePayload defaultSettings (fun k => k) 0).1.timestamp] := by
  decide

/-- C6 (amended): every alert created from a telemetry submission is created
unresolved (`resolved = false`, `resolvedAt` NULL), and under a monotone wall
clock its timestamp is at least the snapshot's `capturedAt` — it is the clock
reading at alert construction, which happens after the snapshot row is
stamped, and the two coincide only when the clock has not advanced in
between. -/
theorem C6_alert_creation_fields (payload : HealthPayload) (s : Settings)
    (clock : ℕ → ℕ) (n : ℕ) (hm : Monotone clock) :
    ∀ a ∈ (submit_health payload s clock n).2,
      a.resolved = false ∧ a.resolved_at = none ∧
      (submit_health payload s clock n).1.timestamp ≤ a.timestamp := by
  intro a ha
  simp only [submit_health] at ha
  obtain ⟨-, hres, hra, ⟨j, hj, hts⟩, -⟩ :=
    evaluate_mem_spec payload.machine_id payload s clock (n + 2) a ha
  refine ⟨hres, hra, ?_⟩
  show clock (n + 1) ≤ a.timestamp
  rw [hts]
  exact hm (by omega)

/-- C6 witness: for the §8 example under the identity clock, the generated cpu
alert is unresolved and stamped no earlier than the telemetry row. -/
theorem C6_witness :
    sampleAlert.resolved = false ∧ sampleAlert.resolved_at = none ∧
    (submit_health samplePayload defaultSettings (fun k => k) 0).1.timestamp ≤
      sampleAlert.timestamp :=
  C6_alert_creation_fields samplePayload defaultSettings (fun k => k) 0
    (fun _ _ h => h) sampleAlert (by decide)

/-- C7: the bulk resolve sets `resolved = true` and one shared `resolvedAt`
value on exactly the previously-open alerts of the given device, returns the
number of such alerts (zero when none), and leaves every other row — other
devices' alerts and already-resolved alerts — unchanged. -/
theorem C7_bulk_resolve (m : String) (now : ℕ) (db : List Alert) :
    (resolve_all m now db).1.length = db.length ∧
    (resolve_all m now db).2 =
      (db.filter fun a => a.machine_id == m && a.resolved == false).length ∧
    ∀ i (hi : i < db.length),
      (db[i].machine_id = m ∧ db[i].resolved = false →
        (resolve_all m now db).1[i]? =
          some { db[i] with resolved := true, resolved_at := some now }) ∧
      (¬(db[i].machine_id = m ∧ db[i].resolved = false) →
        (resolve_all m now db).1[i]? = some db[i]) := by
  refine ⟨resolve_all_length m now db, resolve_all_count m now db, ?_⟩
  intro i hi
  constructor <;> intro hcond <;> rw [resolve_all_get m now db i hi]
  · rw [if_pos hcond]
  · rw [if_neg hcond]

/-- C7 witness: on a table with one open alert of `m`, one resolved alert of
`m` and one open alert of another device, the bulk resolve reports one
affected row, stamps exactly the open alert of `m`, and leaves the resolved
one untouched. -/
theorem C7_witness :
    (resolve_all "m" 9 mixedDb).2 = 1 ∧
    (resolve_all "m" 9 mixedDb).1[0]? =
      some { id := 1, machine_id := "m", severity := "critical", category := "cpu",
             message := "a", timestamp := 1, resolved := true, resolved_at := some 9 } ∧
    (resolve_all "m" 9 mixedDb).1[1]? =
      some { id := 2, machine_id := "m", severity := "warning", category := "disk",
             message := "b", timestamp := 2, resolved := true, resolved_at := some 4 } :=
  ⟨((C7_bulk_resolve "m" 9 mixedDb).2.1).trans (by decide),
   ((C7_bulk_resolve "m" 9 mixedDb).2.2 0 (by decide)).1 (by decide),
   ((C7_bulk_resolve "m" 9 mixedDb).2.2 1 (by decide)).2 (by decide)⟩

/-- C8 counterexample: resolving an alert that is already resolved (with
`resolvedAt = 5`) at tick 9 succeeds and overwrites its `resolvedAt` to 9 —
the single-alert resolve consults neither the `resolved` flag nor the
existing `resolvedAt`, so `resolvedAt` is not assigned exactly once. -/
theorem C8_counterexample :
    resolve_alert 1 9 resolvedDb = .ok rebumpedDb ∧
    resolve_alert 1 9 resolvedDb ≠ .ok resolvedDb := by
  constructor
  · rfl
  · intro hco
    rw [show resolve_alert 1 9 resolvedDb = .ok rebumpedDb from rfl] at hco
    simp [rebumpedDb, resolvedDb] at hco

/-- C8 (amended): no resolve operation ever changes any field other than the
`resolved`/`resolvedAt` pair; the bulk resolve skips already-resolved alerts
entirely (their `resolvedAt` is preserved); but the single-alert resolve
stamps `resolved = true` and a fresh `resolvedAt` on the matched alert
unconditionally, so a later single resolve of an already-resolved alert does
overwrite its `resolvedAt`. -/
theorem C8_resolved_at_overwrite (aid now : ℕ) (db db2 : List Alert) (m : String)
    (h : resolve_alert aid now db = .ok db2) :
    db2.length = db.length ∧
    (∀ i (hi : i < db.length),
      db2[i]?.map Alert.immutablePart = some db[i].immutablePart) ∧
    (∃ j, ∃ hj : j < db.length, db[j].id = aid ∧
      db2[j]? = some { db[j] with resolved := true, resolved_at := some now }) ∧
    (∀ i (hi : i < db.length), db[i].resolved = true →
      (resolve_all m now db).1[i]? = some db[i]) := by
  obtain ⟨hlen, hidx, hex⟩ := resolve_alert_spec aid now db db2 h
  refine ⟨hlen, ?_, hex, ?_⟩
  · intro i hi
    rcases hidx i hi with h1 | ⟨-, h1⟩ <;> rw [h1] <;> rfl
  · intro i hi hres
    rw [resolve_all_get m now db i hi, if_neg (by simp [hres])]

/-- C8 witness: on the one-row table holding an already-resolved alert, a
second single resolve keeps every immutable field but overwrites
`resolvedAt`, while the bulk resolve leaves the row fully unchanged. -/
theorem C8_witness :
    rebumpedDb.length = resolvedDb.length ∧
    rebumpedDb[0]?.map Alert.immutablePart =
      some ((1 : ℕ), "m", "critical", "cpu", "x", (3 : ℕ)) ∧
    (resolve_all "m" 9 resolvedDb).1[0]? =
      some { id := 1, machine_id := "m", severity := "critical", category := "cpu",
             message := "x", timestamp := 3, resolved := true, resolved_at := some 5 } :=
  ⟨(C8_resolved_at_overwrite 1 9 resolvedDb rebumpedDb "m" rfl).1,
   (C8_resolved_at_overwrite 1 9 resolvedDb rebumpedDb "m" rfl).2.1 0 (by decide),
   (C8_resolved_at_overwrite 1 9 resolvedDb rebumpedDb "m" rfl).2.2.2 0
     (by decide) (by decide)⟩
